import Mathlib

/-!
Verification of the friend-request core of a social-media networking
service (Django app `users`, file `users/views.py`).

The embedding models the `FriendRequest` table, the user directory, and
the five operations the spec describes: `send_friend_request`,
`accept_friend_request`, `reject_friend_request`, `list_friends` and
`list_pending_requests`.  Users and requests are identified by natural
numbers; wall-clock time is a natural number of seconds.  The HTTP error
responses of the views are represented by the spec's error taxonomy
(`Err`), with `Err.status` recording the HTTP status each branch of the
source returns.
-/

/-- A user of the directory: primary key and unique email. -/
structure User where
  id : Nat
  email : String
deriving Repr, DecidableEq

/-- A row of the FriendRequest table: primary key, sender and receiver
user ids, creation time, and the two state flags (both default false at
creation). -/
structure FriendRequest where
  id : Nat
  sender : Nat
  receiver : Nat
  timestamp : Nat
  is_accepted : Bool
  is_rejected : Bool
deriving Repr, DecidableEq

/-- The persistent store: the list of FriendRequest rows plus the next
primary key the database will assign. -/
structure Store where
  requests : List FriendRequest
  nextId : Nat
deriving Repr, DecidableEq

/-- The empty database. -/
def Store.empty : Store := ⟨[], 1⟩

/-- Error taxonomy of the views (spec section 7). -/
inductive Err where
  | invalidInput
  | notFound
  | conflict
  | rateLimited
deriving Repr, DecidableEq

/-- The HTTP status code each error is returned with in `views.py`. -/
def Err.status : Err → Nat
  | .invalidInput => 400
  | .notFound => 404
  | .conflict => 400
  | .rateLimited => 429

/-- `User.objects.get(email=receiver_email)`: the first directory entry
with that email, if any. -/
def lookupUser (dir : List User) (email : String) : Option User :=
  dir.find? (fun u => u.email == email)

/-- `FriendRequest.objects.filter(sender=request.user, receiver=receiver).exists()`. -/
def duplicateExists (st : Store) (s rid : Nat) : Bool :=
  st.requests.any (fun r => r.sender == s && r.receiver == rid)

/-- `FriendRequest.objects.filter(sender=request.user, timestamp__gte=now - 1 minute).count()`. -/
def recentCount (st : Store) (s now : Nat) : Nat :=
  (st.requests.filter (fun r => r.sender == s && Nat.ble (now - 60) r.timestamp)).length

/-- `send_friend_request` (views.py lines 118-136): missing/blank email
gives 400, unknown email 404, an existing sender→receiver row 400
("already sent"), three or more rows by this sender in the trailing 60
seconds 429; otherwise a new pending row is persisted and returned. -/
def sendFriendRequest (dir : List User) (st : Store) (s : Nat)
    (receiver_email : Option String) (now : Nat) :
    Except Err FriendRequest × Store :=
  match receiver_email with
  | none => (.error .invalidInput, st)
  | some email =>
    if email = "" then (.error .invalidInput, st)
    else
      match lookupUser dir email with
      | none => (.error .notFound, st)
      | some receiver =>
        if duplicateExists st s receiver.id then (.error .conflict, st)
        else if 3 ≤ recentCount st s now then (.error .rateLimited, st)
        else
          (.ok ⟨st.nextId, s, receiver.id, now, false, false⟩,
           ⟨st.requests ++ [⟨st.nextId, s, receiver.id, now, false, false⟩],
            st.nextId + 1⟩)

/-- The lookup filter of accept/reject:
`FriendRequest.objects.get(pk=pk, receiver=request.user)`. -/
def reqMatch (pk actor : Nat) (r : FriendRequest) : Bool :=
  r.id == pk && r.receiver == actor

/-- Fetch-then-save semantics: the first row matching (pk, receiver) is
replaced by its updated version, every other row is untouched. -/
def setFlag (f : FriendRequest → FriendRequest) (pk actor : Nat) :
    List FriendRequest → List FriendRequest
  | [] => []
  | r :: rest =>
    if reqMatch pk actor r then f r :: rest
    else r :: setFlag f pk actor rest

/-- `friend_request.is_accepted = True`. -/
def markAccepted (r : FriendRequest) : FriendRequest :=
  { r with is_accepted := true }

/-- `friend_request.is_rejected = True`. -/
def markRejected (r : FriendRequest) : FriendRequest :=
  { r with is_rejected := true }

/-- `accept_friend_request` (views.py lines 155-162): 404 when no row has
this pk with the actor as receiver, otherwise set `is_accepted` and
return the updated record. -/
def acceptFriendRequest (st : Store) (actor pk : Nat) :
    Except Err FriendRequest × Store :=
  match st.requests.find? (reqMatch pk actor) with
  | none => (.error .notFound, st)
  | some r =>
    (.ok (markAccepted r),
     ⟨setFlag markAccepted pk actor st.requests, st.nextId⟩)

/-- `reject_friend_request` (views.py lines 181-188): 404 when no row has
this pk with the actor as receiver, otherwise set `is_rejected` and
return the updated record. -/
def rejectFriendRequest (st : Store) (actor pk : Nat) :
    Except Err FriendRequest × Store :=
  match st.requests.find? (reqMatch pk actor) with
  | none => (.error .notFound, st)
  | some r =>
    (.ok (markRejected r),
     ⟨setFlag markRejected pk actor st.requests, st.nextId⟩)

/-- `list_pending_requests` (views.py lines 227-228): rows received by
the actor with both flags still false. -/
def listPendingRequests (st : Store) (actor : Nat) : List FriendRequest :=
  st.requests.filter
    (fun r => r.receiver == actor && !r.is_accepted && !r.is_rejected)

/-- One row of the `list_friends` query links `u` to `actor`: the row is
accepted and connects the two in either direction. -/
def rowLinks (r : FriendRequest) (actor u : Nat) : Bool :=
  r.is_accepted &&
    ((r.sender == u && r.receiver == actor) ||
     (r.sender == actor && r.receiver == u))

/-- Some row of the store links `u` to `actor`. -/
def isFriend (st : Store) (actor u : Nat) : Bool :=
  st.requests.any (fun r => rowLinks r actor u)

/-- `list_friends` (views.py lines 205-209): the distinct users of the
directory linked to the actor by an accepted row in either direction. -/
def listFriends (dir : List User) (st : Store) (actor : Nat) : List Nat :=
  ((dir.map User.id).filter (fun u => isFriend st actor u)).dedup

/-- An API operation against the store. -/
inductive Op where
  | send (s : Nat) (receiver_email : Option String) (now : Nat)
  | accept (actor pk : Nat)
  | reject (actor pk : Nat)
deriving Repr, DecidableEq

/-- The store after one operation (error responses leave it unchanged). -/
def step (dir : List User) (st : Store) : Op → Store
  | .send s e n => (sendFriendRequest dir st s e n).2
  | .accept a pk => (acceptFriendRequest st a pk).2
  | .reject a pk => (rejectFriendRequest st a pk).2

/-- The store after a sequence of operations. -/
def runOps (dir : List User) (st : Store) : List Op → Store
  | [] => st
  | op :: rest => runOps dir (step dir st op) rest

/-- No row has both state flags set. -/
def mutexB (st : Store) : Bool :=
  st.requests.all (fun r => !(r.is_accepted && r.is_rejected))

/-- An operation that never resolves a request against an opposite prior
resolution: accepting only rows not yet rejected, rejecting only rows not
yet accepted. -/
def safeOp (st : Store) : Op → Bool
  | .send _ _ _ => true
  | .accept a pk =>
    st.requests.all (fun r => !(reqMatch pk a r) || !r.is_rejected)
  | .reject a pk =>
    st.requests.all (fun r => !(reqMatch pk a r) || !r.is_accepted)

/-- Every operation of the trace is safe in the state it runs in. -/
def safeTrace (dir : List User) (st : Store) : List Op → Bool
  | [] => true
  | op :: rest => safeOp st op && safeTrace dir (step dir st op) rest

/-- All rows reference users present in the directory (the foreign-key
discipline of the database). -/
def wfStore (dir : List User) (st : Store) : Prop :=
  ∀ r ∈ st.requests,
    r.sender ∈ dir.map User.id ∧ r.receiver ∈ dir.map User.id

instance (dir : List User) (st : Store) : Decidable (wfStore dir st) := by
  unfold wfStore; infer_instance

lemma reqMatch_iff {pk actor : Nat} {r : FriendRequest} :
    reqMatch pk actor r = true ↔ r.id = pk ∧ r.receiver = actor := by
  simp [reqMatch]

lemma duplicateExists_iff {st : Store} {s rid : Nat} :
    duplicateExists st s rid = true ↔
      ∃ r ∈ st.requests, r.sender = s ∧ r.receiver = rid := by
  simp [duplicateExists]

lemma isFriend_iff {st : Store} {actor u : Nat} :
    isFriend st actor u = true ↔
      ∃ r ∈ st.requests, r.is_accepted = true ∧
        ((r.sender = u ∧ r.receiver = actor) ∨
         (r.sender = actor ∧ r.receiver = u)) := by
  simp [isFriend, rowLinks]

lemma mem_setFlag {f : FriendRequest → FriendRequest} {pk actor : Nat}
    {q : FriendRequest} {rs : List FriendRequest}
    (h : q ∈ setFlag f pk actor rs) :
    q ∈ rs ∨ ∃ r ∈ rs, reqMatch pk actor r = true ∧ q = f r := by
  induction rs with
  | nil => simp [setFlag] at h
  | cons x rest ih =>
    by_cases hx : reqMatch pk actor x = true
    · rw [setFlag, if_pos hx] at h
      rcases List.mem_cons.mp h with h | h
      · exact Or.inr ⟨x, List.mem_cons_self x rest, hx, h⟩
      · exact Or.inl (List.mem_cons_of_mem _ h)
    · rw [setFlag, if_neg hx] at h
      rcases List.mem_cons.mp h with h | h
      · exact Or.inl (h ▸ List.mem_cons_self x rest)
      · rcases ih h with h | ⟨r, hr, hm, hq⟩
        · exact Or.inl (List.mem_cons_of_mem _ h)
        · exact Or.inr ⟨r, List.mem_cons_of_mem _ hr, hm, hq⟩

lemma setFlag_mem_of_find {f : FriendRequest → FriendRequest}
    {pk actor : Nat} {r : FriendRequest} {rs : List FriendRequest}
    (h : rs.find? (reqMatch pk actor) = some r) :
    f r ∈ setFlag f pk actor rs := by
  induction rs with
  | nil => simp at h
  | cons x rest ih =>
    by_cases hx : reqMatch pk actor x = true
    · rw [List.find?_cons_of_pos _ hx] at h
      cases h
      rw [setFlag, if_pos hx]
      exact List.mem_cons_self _ _
    · rw [List.find?_cons_of_neg _ hx] at h
      rw [setFlag, if_neg hx]
      exact List.mem_cons_of_mem _ (ih h)

lemma setFlag_unique {f : FriendRequest → FriendRequest}
    {pk actor : Nat} {r : FriendRequest} {rs : List FriendRequest}
    (hnd : (rs.map FriendRequest.id).Nodup)
    (hf : rs.find? (reqMatch pk actor) = some r) :
    ∀ q ∈ setFlag f pk actor rs, q.id = pk → q = f r := by
  induction rs with
  | nil => simp at hf
  | cons x rest ih =>
    rw [List.map_cons, List.nodup_cons] at hnd
    by_cases hx : reqMatch pk actor x = true
    · rw [List.find?_cons_of_pos _ hx] at hf
      have hxr : x = r := by injection hf
      intro q hq hid
      rw [setFlag, if_pos hx] at hq
      rcases List.mem_cons.mp hq with hq | hq
      · rw [hq, hxr]
      · exfalso
        have hxid : x.id = pk := (reqMatch_iff.mp hx).1
        have hmem : x.id ∈ rest.map FriendRequest.id := by
          rw [hxid, ← hid]
          exact List.mem_map_of_mem FriendRequest.id hq
        exact hnd.1 hmem
    · rw [List.find?_cons_of_neg _ hx] at hf
      intro q hq hid
      rw [setFlag, if_neg hx] at hq
      rcases List.mem_cons.mp hq with hq | hq
      · exfalso
        have hrid : r.id = pk := (reqMatch_iff.mp (List.find?_some hf)).1
        have hrm : r ∈ rest := List.mem_of_find?_eq_some hf
        have hxid : x.id = pk := by rw [← hq]; exact hid
        have hmem : x.id ∈ rest.map FriendRequest.id := by
          rw [hxid, ← hrid]
          exact List.mem_map_of_mem FriendRequest.id hrm
        exact hnd.1 hmem
      · exact ih hnd.2 hf q hq hid

lemma send_store_cases (dir : List User) (st : Store) (s : Nat)
    (e : Option String) (now : Nat) :
    (sendFriendRequest dir st s e now).2 = st ∨
    ∃ fr : FriendRequest, fr.is_accepted = false ∧ fr.is_rejected = false ∧
      (sendFriendRequest dir st s e now).2 = ⟨st.requests ++ [fr], st.nextId + 1⟩ := by
  rcases e with _ | email
  · exact Or.inl rfl
  · simp only [sendFriendRequest]
    by_cases h1 : email = ""
    · rw [if_pos h1]; exact Or.inl rfl
    · rw [if_neg h1]
      rcases hl : lookupUser dir email with _ | recv
      · exact Or.inl rfl
      · dsimp only
        by_cases h2 : duplicateExists st s recv.id = true
        · rw [if_pos h2]; exact Or.inl rfl
        · rw [if_neg h2]
          by_cases h3 : 3 ≤ recentCount st s now
          · rw [if_pos h3]; exact Or.inl rfl
          · rw [if_neg h3]
            exact Or.inr ⟨⟨st.nextId, s, recv.id, now, false, false⟩, rfl, rfl, rfl⟩

lemma accept_store_cases (st : Store) (actor pk : Nat) :
    (acceptFriendRequest st actor pk).2 = st ∨
    ∃ r, st.requests.find? (reqMatch pk actor) = some r ∧
      (acceptFriendRequest st actor pk).2 =
        ⟨setFlag markAccepted pk actor st.requests, st.nextId⟩ := by
  unfold acceptFriendRequest
  rcases h : st.requests.find? (reqMatch pk actor) with _ | r
  · exact Or.inl rfl
  · exact Or.inr ⟨r, rfl, rfl⟩

lemma reject_store_cases (st : Store) (actor pk : Nat) :
    (rejectFriendRequest st actor pk).2 = st ∨
    ∃ r, st.requests.find? (reqMatch pk actor) = some r ∧
      (rejectFriendRequest st actor pk).2 =
        ⟨setFlag markRejected pk actor st.requests, st.nextId⟩ := by
  unfold rejectFriendRequest
  rcases h : st.requests.find? (reqMatch pk actor) with _ | r
  · exact Or.inl rfl
  · exact Or.inr ⟨r, rfl, rfl⟩

lemma mutexB_iff {st : Store} :
    mutexB st = true ↔
      ∀ r ∈ st.requests, ¬(r.is_accepted = true ∧ r.is_rejected = true) := by
  unfold mutexB
  rw [List.all_eq_true]
  constructor
  · intro h r hr hc
    have hb := h r hr
    rw [hc.1, hc.2] at hb
    simp at hb
  · intro h r hr
    cases ha : r.is_accepted
    · simp [ha]
    · cases hb : r.is_rejected
      · simp [ha, hb]
      · exact absurd ⟨ha, hb⟩ (h r hr)

lemma mutexB_step (dir : List User) (st : Store) (op : Op)
    (hm : mutexB st = true) (hs : safeOp st op = true) :
    mutexB (step dir st op) = true := by
  rcases op with ⟨s, e, n⟩ | ⟨a, pk⟩ | ⟨a, pk⟩
  · rcases send_store_cases dir st s e n with h | ⟨fr, ha, hr, h⟩
    · simp only [step]; rw [h]; exact hm
    · simp only [step]; rw [h]
      rw [mutexB_iff] at hm ⊢
      intro q hq
      rcases List.mem_append.mp hq with hq | hq
      · exact hm q hq
      · rcases List.mem_singleton.mp hq with rfl
        simp [ha]
  · rcases accept_store_cases st a pk with h | ⟨r, hfind, h⟩
    · simp only [step]; rw [h]; exact hm
    · simp only [step]; rw [h]
      rw [mutexB_iff] at hm ⊢
      intro q hq
      rcases mem_setFlag hq with hq | ⟨r2, hr2, hmt, rfl⟩
      · exact hm q hq
      · simp only [safeOp, List.all_eq_true] at hs
        have hb := hs r2 hr2
        rw [hmt] at hb
        simp only [Bool.not_true, Bool.false_or] at hb
        intro hc
        have h2 : r2.is_rejected = true := by
          simpa [markAccepted] using hc.2
        rw [h2] at hb
        simp at hb
  · rcases reject_store_cases st a pk with h | ⟨r, hfind, h⟩
    · simp only [step]; rw [h]; exact hm
    · simp only [step]; rw [h]
      rw [mutexB_iff] at hm ⊢
      intro q hq
      rcases mem_setFlag hq with hq | ⟨r2, hr2, hmt, rfl⟩
      · exact hm q hq
      · simp only [safeOp, List.all_eq_true] at hs
        have hb := hs r2 hr2
        rw [hmt] at hb
        simp only [Bool.not_true, Bool.false_or] at hb
        intro hc
        have h2 : r2.is_accepted = true := by
          simpa [markRejected] using hc.1
        rw [h2] at hb
        simp at hb

/-- Claim C1: a sender who already has at least 3 FriendRequest rows with
creation time in the trailing 60 seconds of the current time gets
RateLimited from any further send that reaches the rate-limit check
(identifier present, receiver resolvable, no duplicate row), and the
store is unchanged: no new row is created. -/
theorem rateLimit_blocks_send (dir : List User) (st : Store) (s now : Nat)
    (email : String) (recv : User)
    (hne : email ≠ "")
    (hlk : lookupUser dir email = some recv)
    (hdup : duplicateExists st s recv.id = false)
    (hrate : 3 ≤ recentCount st s now) :
    sendFriendRequest dir st s (some email) now = (.error .rateLimited, st) := by
  have hd : ¬(duplicateExists st s recv.id = true) := by
    rw [hdup]; simp
  simp only [sendFriendRequest]
  rw [if_neg hne, hlk]
  dsimp only
  rw [if_neg hd, if_pos hrate]

/-- Witness for C1: sender 1 has three requests at time 0 and a fourth
send at time 0 to a fresh receiver is refused with RateLimited. -/
theorem rateLimit_blocks_send_witness :
    sendFriendRequest [⟨1, "a"⟩, ⟨2, "b"⟩]
      ⟨[⟨1, 1, 3, 0, false, false⟩, ⟨2, 1, 4, 0, false, false⟩,
        ⟨3, 1, 5, 0, false, false⟩], 4⟩ 1 (some "b") 0 =
      (.error .rateLimited,
       ⟨[⟨1, 1, 3, 0, false, false⟩, ⟨2, 1, 4, 0, false, false⟩,
         ⟨3, 1, 5, 0, false, false⟩], 4⟩) :=
  rateLimit_blocks_send _ _ _ _ _ ⟨2, "b"⟩ (by decide) (by rfl) (by rfl) (by decide)

/-- Claim C2: with the identifier resolving to `recv`, a send fails with
Conflict and leaves the store unchanged exactly when a sender→receiver
row already exists in any state; without such a row — even when
reverse-direction receiver→sender rows are present — the send passes the
duplicate check and, below the rate limit, creates the new row. -/
theorem duplicate_send_conflict (dir : List User) (st : Store)
    (s now : Nat) (email : String) (recv : User)
    (hne : email ≠ "") (hlk : lookupUser dir email = some recv) :
    ((∃ r ∈ st.requests, r.sender = s ∧ r.receiver = recv.id) →
      sendFriendRequest dir st s (some email) now = (.error .conflict, st)) ∧
    ((¬∃ r ∈ st.requests, r.sender = s ∧ r.receiver = recv.id) →
      recentCount st s now < 3 →
      sendFriendRequest dir st s (some email) now =
        (.ok ⟨st.nextId, s, recv.id, now, false, false⟩,
         ⟨st.requests ++ [⟨st.nextId, s, recv.id, now, false, false⟩],
          st.nextId + 1⟩)) := by
  constructor
  · intro hdup
    have hd : duplicateExists st s recv.id = true := duplicateExists_iff.mpr hdup
    simp only [sendFriendRequest]
    rw [if_neg hne, hlk]
    dsimp only
    rw [if_pos hd]
  · intro hdup hrate
    have hd : ¬(duplicateExists st s recv.id = true) := fun hc =>
      hdup (duplicateExists_iff.mp hc)
    have hr : ¬(3 ≤ recentCount st s now) := Nat.not_le.mpr hrate
    simp only [sendFriendRequest]
    rw [if_neg hne, hlk]
    dsimp only
    rw [if_neg hd, if_neg hr]

/-- Witness for C2: a second 1→2 send hits Conflict with the store
unchanged, while a 1→2 send over a store holding only the reverse row
2→1 succeeds and appends the new row. -/
theorem duplicate_send_conflict_witness :
    sendFriendRequest [⟨1, "a"⟩, ⟨2, "b"⟩] ⟨[⟨1, 1, 2, 5, false, false⟩], 2⟩
        1 (some "b") 5 =
      (.error .conflict, ⟨[⟨1, 1, 2, 5, false, false⟩], 2⟩) ∧
    sendFriendRequest [⟨1, "a"⟩, ⟨2, "b"⟩] ⟨[⟨1, 2, 1, 5, false, false⟩], 2⟩
        1 (some "b") 5 =
      (.ok ⟨2, 1, 2, 5, false, false⟩,
       ⟨[⟨1, 2, 1, 5, false, false⟩, ⟨2, 1, 2, 5, false, false⟩], 3⟩) :=
  ⟨(duplicate_send_conflict _ _ _ _ _ ⟨2, "b"⟩ (by decide) (by rfl)).1 (by decide),
   (duplicate_send_conflict _ _ _ _ _ ⟨2, "b"⟩ (by decide) (by rfl)).2
     (by decide) (by decide)⟩

/-- Claim C10: the validation order of send is fixed — missing
identifier, then receiver lookup, then duplicate check, then rate
limit — so even for a sender at the rate limit a duplicate send returns
Conflict (not RateLimited), a send to an unresolvable receiver returns
NotFound (not RateLimited), and a missing identifier returns
InvalidInput (not RateLimited). -/
theorem send_validation_order (dir : List User) (st : Store)
    (s now : Nat) (email : String)
    (hne : email ≠ "") (_hrate : 3 ≤ recentCount st s now) :
    (∀ recv : User, lookupUser dir email = some recv →
      duplicateExists st s recv.id = true →
      sendFriendRequest dir st s (some email) now = (.error .conflict, st)) ∧
    (lookupUser dir email = none →
      sendFriendRequest dir st s (some email) now = (.error .notFound, st)) ∧
    sendFriendRequest dir st s none now = (.error .invalidInput, st) := by
  refine ⟨?_, ?_, rfl⟩
  · intro recv hlk hd
    simp only [sendFriendRequest]
    rw [if_neg hne, hlk]
    dsimp only
    rw [if_pos hd]
  · intro hlk
    simp only [sendFriendRequest]
    rw [if_neg hne, hlk]

/-- Witness for C10: with sender 1 at the rate limit, a duplicate send
gives Conflict, an unknown email gives NotFound, a missing email gives
InvalidInput — never RateLimited. -/
theorem send_validation_order_witness :
    sendFriendRequest [⟨1, "a"⟩, ⟨2, "b"⟩]
      ⟨[⟨1, 1, 2, 0, false, false⟩, ⟨2, 1, 4, 0, false, false⟩,
        ⟨3, 1, 5, 0, false, false⟩], 4⟩ 1 (some "b") 0 =
      (.error .conflict,
       ⟨[⟨1, 1, 2, 0, false, false⟩, ⟨2, 1, 4, 0, false, false⟩,
         ⟨3, 1, 5, 0, false, false⟩], 4⟩) ∧
    sendFriendRequest [⟨1, "a"⟩, ⟨2, "b"⟩]
      ⟨[⟨1, 1, 2, 0, false, false⟩, ⟨2, 1, 4, 0, false, false⟩,
        ⟨3, 1, 5, 0, false, false⟩], 4⟩ 1 (some "z") 0 =
      (.error .notFound,
       ⟨[⟨1, 1, 2, 0, false, false⟩, ⟨2, 1, 4, 0, false, false⟩,
         ⟨3, 1, 5, 0, false, false⟩], 4⟩) ∧
    sendFriendRequest [⟨1, "a"⟩, ⟨2, "b"⟩]
      ⟨[⟨1, 1, 2, 0, false, false⟩, ⟨2, 1, 4, 0, false, false⟩,
        ⟨3, 1, 5, 0, false, false⟩], 4⟩ 1 none 0 =
      (.error .invalidInput,
       ⟨[⟨1, 1, 2, 0, false, false⟩, ⟨2, 1, 4, 0, false, false⟩,
         ⟨3, 1, 5, 0, false, false⟩], 4⟩) :=
  ⟨(send_validation_order _ _ 1 0 "b" (by decide) (by decide)).1
     ⟨2, "b"⟩ (by rfl) (by rfl),
   (send_validation_order _ _ 1 0 "z" (by decide) (by decide)).2.1 (by rfl),
   (send_validation_order _ _ 1 0 "q" (by decide) (by decide)).2.2⟩

/-- Claim C7 counterexample: a send with a missing receiver identifier is
answered with InvalidInput (the HTTP 400 "receiver email is required"
branch), not NotFound (HTTP 404) as the claim states. -/
theorem missing_identifier_not_notFound :
    (sendFriendRequest [⟨1, "a"⟩] Store.empty 1 none 0).1 =
      Except.error Err.invalidInput ∧
    Err.invalidInput ≠ Err.notFound ∧
    Err.status Err.invalidInput = 400 ∧ Err.status Err.notFound = 404 :=
  ⟨rfl, by decide, rfl, rfl⟩

/-- Claim C7 amended: a send with a missing or empty receiver identifier
returns InvalidInput (400), a send whose nonempty identifier resolves to
no user returns NotFound (404), and in every such case the store is
unchanged — no FriendRequest row is created. -/
theorem missing_or_unknown_receiver (dir : List User) (st : Store)
    (s now : Nat) :
    sendFriendRequest dir st s none now = (.error .invalidInput, st) ∧
    sendFriendRequest dir st s (some "") now = (.error .invalidInput, st) ∧
    (∀ email : String, email ≠ "" → lookupUser dir email = none →
      sendFriendRequest dir st s (some email) now = (.error .notFound, st)) := by
  refine ⟨rfl, rfl, ?_⟩
  intro email hne hlk
  simp only [sendFriendRequest]
  rw [if_neg hne, hlk]

/-- Witness for C7 (amended): the three failing sends on the empty store
at a concrete directory. -/
theorem missing_or_unknown_receiver_witness :
    sendFriendRequest [⟨1, "a"⟩] Store.empty 1 none 0 =
      (.error .invalidInput, Store.empty) ∧
    sendFriendRequest [⟨1, "a"⟩] Store.empty 1 (some "") 0 =
      (.error .invalidInput, Store.empty) ∧
    sendFriendRequest [⟨1, "a"⟩] Store.empty 1 (some "z") 0 =
      (.error .notFound, Store.empty) :=
  ⟨(missing_or_unknown_receiver [⟨1, "a"⟩] Store.empty 1 0).1,
   (missing_or_unknown_receiver [⟨1, "a"⟩] Store.empty 1 0).2.1,
   (missing_or_unknown_receiver [⟨1, "a"⟩] Store.empty 1 0).2.2 "z"
     (by decide) (by rfl)⟩

/-- Claim C8 evaluated on the code: the source has no self-request guard,
so a user sending a request to their own email does not get Conflict —
the send succeeds and persists a row with sender = receiver. -/
theorem self_request_creates_row :
    sendFriendRequest [⟨1, "a"⟩] Store.empty 1 (some "a") 0 =
      (.ok ⟨1, 1, 1, 0, false, false⟩,
       ⟨[⟨1, 1, 1, 0, false, false⟩], 2⟩) := by rfl

/-- Claim C3 counterexample: from the empty store, send 1→2 then reject
then accept on the same request is a reachable trace whose final store
holds a row with is_accepted and is_rejected both true — accept
overwrites a prior rejection without clearing it. -/
theorem flag_mutex_counterexample :
    (runOps [⟨1, "a"⟩, ⟨2, "b"⟩] Store.empty
        [Op.send 1 (some "b") 0, Op.reject 2 1, Op.accept 2 1]).requests =
      [⟨1, 1, 2, 0, true, true⟩] ∧
    mutexB (runOps [⟨1, "a"⟩, ⟨2, "b"⟩] Store.empty
        [Op.send 1 (some "b") 0, Op.reject 2 1, Op.accept 2 1]) = false := by
  decide

/-- Claim C3 amended: both flags start false at creation, and every trace
of send, accept and reject operations that never accepts an
already-rejected request nor rejects an already-accepted one preserves
the mutual exclusion of is_accepted and is_rejected; the unrestricted
claim fails because accept and reject do not guard against an opposite
prior resolution. -/
theorem flag_mutex_of_safeTrace (dir : List User) (st : Store)
    (ops : List Op) (hm : mutexB st = true)
    (hs : safeTrace dir st ops = true) :
    mutexB (runOps dir st ops) = true := by
  induction ops generalizing st with
  | nil => exact hm
  | cons op rest ih =>
    simp only [safeTrace, Bool.and_eq_true] at hs
    simp only [runOps]
    exact ih (step dir st op) (mutexB_step dir st op hm hs.1) hs.2

/-- Witness for C3 (amended): a safe trace — send then accept — keeps the
invariant. -/
theorem flag_mutex_of_safeTrace_witness :
    mutexB Store.empty = true ∧
    safeTrace [⟨1, "a"⟩, ⟨2, "b"⟩] Store.empty
      [Op.send 1 (some "b") 0, Op.accept 2 1] = true ∧
    mutexB (runOps [⟨1, "a"⟩, ⟨2, "b"⟩] Store.empty
      [Op.send 1 (some "b") 0, Op.accept 2 1]) = true :=
  ⟨by decide, by decide,
   flag_mutex_of_safeTrace [⟨1, "a"⟩, ⟨2, "b"⟩] Store.empty
     [Op.send 1 (some "b") 0, Op.accept 2 1] (by decide) (by decide)⟩

/-- Claim C4: over a store whose rows reference directory users, a user u
appears in list_friends(actor) iff some FriendRequest row with
is_accepted = true links u and actor in either direction, and the result
lists each such user exactly once (no duplicates, even with accepted rows
in both directions). -/
theorem listFriends_iff (dir : List User) (st : Store) (actor : Nat)
    (hwf : wfStore dir st) :
    (∀ u : Nat, u ∈ listFriends dir st actor ↔
      ∃ r ∈ st.requests, r.is_accepted = true ∧
        ((r.sender = u ∧ r.receiver = actor) ∨
         (r.sender = actor ∧ r.receiver = u))) ∧
    (listFriends dir st actor).Nodup := by
  constructor
  · intro u
    unfold listFriends
    rw [List.mem_dedup, List.mem_filter]
    constructor
    · rintro ⟨-, hf⟩
      exact isFriend_iff.mp hf
    · intro hex
      refine ⟨?_, isFriend_iff.mpr hex⟩
      obtain ⟨r, hr, hacc, hdir⟩ := hex
      rcases hdir with ⟨h1, h2⟩ | ⟨h1, h2⟩
      · exact h1 ▸ (hwf r hr).1
      · exact h2 ▸ (hwf r hr).2
  · exact List.nodup_dedup _

/-- Witness for C4: with one accepted 1→2 row, user 2 is a friend of
user 1 via the sender=actor direction, and the list has no duplicates;
even with accepted rows in both directions the friend appears once. -/
theorem listFriends_iff_witness :
    (2 : Nat) ∈ listFriends [⟨1, "a"⟩, ⟨2, "b"⟩]
      ⟨[⟨1, 1, 2, 0, true, false⟩], 2⟩ 1 ∧
    (listFriends [⟨1, "a"⟩, ⟨2, "b"⟩] ⟨[⟨1, 1, 2, 0, true, false⟩], 2⟩ 1).Nodup ∧
    listFriends [⟨1, "a"⟩, ⟨2, "b"⟩]
      ⟨[⟨1, 1, 2, 0, true, false⟩, ⟨2, 2, 1, 0, true, false⟩], 3⟩ 1 = [2] :=
  ⟨((listFriends_iff [⟨1, "a"⟩, ⟨2, "b"⟩]
       ⟨[⟨1, 1, 2, 0, true, false⟩], 2⟩ 1 (by decide)).1 2).mpr
     ⟨⟨1, 1, 2, 0, true, false⟩, by decide, rfl, Or.inr ⟨rfl, rfl⟩⟩,
   (listFriends_iff [⟨1, "a"⟩, ⟨2, "b"⟩]
      ⟨[⟨1, 1, 2, 0, true, false⟩], 2⟩ 1 (by decide)).2,
   by decide⟩

/-- Claim C5: when accept succeeds, returning the record fr with st2 the
new store, the sender and receiver of fr appear in each other's friend
lists of st2, and the request id is no longer among the receiver's
pending requests. -/
theorem accept_updates_views (dir : List User) (st : Store)
    (actor pk : Nat) (fr : FriendRequest) (st2 : Store)
    (hwf : wfStore dir st)
    (hnd : (st.requests.map FriendRequest.id).Nodup)
    (h : acceptFriendRequest st actor pk = (.ok fr, st2)) :
    fr.receiver ∈ listFriends dir st2 fr.sender ∧
    fr.sender ∈ listFriends dir st2 fr.receiver ∧
    pk ∉ (listPendingRequests st2 actor).map FriendRequest.id := by
  unfold acceptFriendRequest at h
  rcases hf : st.requests.find? (reqMatch pk actor) with _ | r
  · rw [hf] at h
    simp at h
  · rw [hf] at h
    rw [Prod.mk.injEq] at h
    obtain ⟨h1, h2⟩ := h
    have h1 : markAccepted r = fr := by injection h1
    subst h1
    subst h2
    have hrmem : r ∈ st.requests := List.mem_of_find?_eq_some hf
    have hmem : markAccepted r ∈ setFlag markAccepted pk actor st.requests :=
      setFlag_mem_of_find hf
    refine ⟨?_, ?_, ?_⟩
    · unfold listFriends
      rw [List.mem_dedup, List.mem_filter]
      constructor
      · simpa [markAccepted] using (hwf r hrmem).2
      · exact isFriend_iff.mpr ⟨markAccepted r, hmem, rfl, Or.inr ⟨rfl, rfl⟩⟩
    · unfold listFriends
      rw [List.mem_dedup, List.mem_filter]
      constructor
      · simpa [markAccepted] using (hwf r hrmem).1
      · exact isFriend_iff.mpr ⟨markAccepted r, hmem, rfl, Or.inl ⟨rfl, rfl⟩⟩
    · intro hc
      rw [List.mem_map] at hc
      obtain ⟨q, hq, hqid⟩ := hc
      rw [listPendingRequests, List.mem_filter] at hq
      obtain ⟨hq1, hq2⟩ := hq
      have hqr : q = markAccepted r := setFlag_unique hnd hf q hq1 hqid
      rw [hqr] at hq2
      simp [markAccepted] at hq2

/-- Witness for C5: accepting the pending 1→2 request as user 2 makes 2 a
friend of 1 and 1 a friend of 2, and empties 2's pending list of id 1. -/
theorem accept_updates_views_witness :
    (2 : Nat) ∈ listFriends [⟨1, "a"⟩, ⟨2, "b"⟩]
      ⟨[⟨1, 1, 2, 0, true, false⟩], 2⟩ 1 ∧
    (1 : Nat) ∈ listFriends [⟨1, "a"⟩, ⟨2, "b"⟩]
      ⟨[⟨1, 1, 2, 0, true, false⟩], 2⟩ 2 ∧
    (1 : Nat) ∉
      (listPendingRequests ⟨[⟨1, 1, 2, 0, true, false⟩], 2⟩ 2).map
        FriendRequest.id :=
  accept_updates_views [⟨1, "a"⟩, ⟨2, "b"⟩] ⟨[⟨1, 1, 2, 0, false, false⟩], 2⟩
    2 1 ⟨1, 1, 2, 0, true, false⟩ ⟨[⟨1, 1, 2, 0, true, false⟩], 2⟩
    (by decide) (by decide) (by rfl)

/-- Claim C6 counterexample: rejecting an already-accepted request
succeeds (last-writer-wins flag setting) but does not clear is_accepted,
so after the reject the store's only row — the rejected request — still
makes the receiver appear in the sender's list_friends. -/
theorem reject_after_accept_counterexample :
    rejectFriendRequest ⟨[⟨1, 1, 2, 0, true, false⟩], 2⟩ 2 1 =
      (.ok ⟨1, 1, 2, 0, true, true⟩, ⟨[⟨1, 1, 2, 0, true, true⟩], 2⟩) ∧
    (2 : Nat) ∈ listFriends [⟨1, "a"⟩, ⟨2, "b"⟩]
      ⟨[⟨1, 1, 2, 0, true, true⟩], 2⟩ 1 :=
  ⟨rfl, by decide⟩

/-- Claim C6 amended: after a successful reject the request never again
appears in the receiver's pending list and the returned record has
is_rejected = true; provided the request was not already accepted, the
row with its id links no pair of users in list_friends — but reject does
not clear is_accepted, so a previously accepted request keeps
contributing to list_friends. -/
theorem reject_removes_request (st : Store) (actor pk : Nat)
    (fr : FriendRequest) (st2 : Store)
    (hnd : (st.requests.map FriendRequest.id).Nodup)
    (h : rejectFriendRequest st actor pk = (.ok fr, st2)) :
    pk ∉ (listPendingRequests st2 actor).map FriendRequest.id ∧
    fr.is_rejected = true ∧
    (fr.is_accepted = false →
      ∀ q ∈ st2.requests, q.id = pk → ∀ a u : Nat, rowLinks q a u = false) := by
  unfold rejectFriendRequest at h
  rcases hf : st.requests.find? (reqMatch pk actor) with _ | r
  · rw [hf] at h
    simp at h
  · rw [hf] at h
    rw [Prod.mk.injEq] at h
    obtain ⟨h1, h2⟩ := h
    have h1 : markRejected r = fr := by injection h1
    subst h1
    subst h2
    refine ⟨?_, rfl, ?_⟩
    · intro hc
      rw [List.mem_map] at hc
      obtain ⟨q, hq, hqid⟩ := hc
      rw [listPendingRequests, List.mem_filter] at hq
      obtain ⟨hq1, hq2⟩ := hq
      have hqr : q = markRejected r := setFlag_unique hnd hf q hq1 hqid
      rw [hqr] at hq2
      simp [markRejected] at hq2
    · intro hacc q hq hqid a u
      have hqr : q = markRejected r := setFlag_unique hnd hf q hq hqid
      rw [hqr, rowLinks, hacc]
      rfl

/-- Witness for C6 (amended): rejecting the pending 1→2 request as user 2
removes id 1 from 2's pending list and the rejected row links nobody. -/
theorem reject_removes_request_witness :
    (1 : Nat) ∉
      (listPendingRequests ⟨[⟨1, 1, 2, 0, false, true⟩], 2⟩ 2).map
        FriendRequest.id ∧
    rowLinks ⟨1, 1, 2, 0, false, true⟩ 1 2 = false :=
  ⟨(reject_removes_request ⟨[⟨1, 1, 2, 0, false, false⟩], 2⟩ 2 1
      ⟨1, 1, 2, 0, false, true⟩ ⟨[⟨1, 1, 2, 0, false, true⟩], 2⟩
      (by decide) (by rfl)).1,
   (reject_removes_request ⟨[⟨1, 1, 2, 0, false, false⟩], 2⟩ 2 1
      ⟨1, 1, 2, 0, false, true⟩ ⟨[⟨1, 1, 2, 0, false, true⟩], 2⟩
      (by decide) (by rfl)).2.2 (by rfl) ⟨1, 1, 2, 0, false, true⟩
     (by decide) (by rfl) 1 2⟩

/-- Claim C9: accept and reject return NotFound with the store unchanged
exactly when no row has the given id with the actor as receiver (covering
a nonexistent id, an id addressed to another receiver, and an id the
actor sent); when such a row exists both succeed, returning the updated
record. -/
theorem accept_reject_notFound_iff (st : Store) (actor pk : Nat) :
    ((¬∃ r ∈ st.requests, r.id = pk ∧ r.receiver = actor) →
      acceptFriendRequest st actor pk = (.error .notFound, st) ∧
      rejectFriendRequest st actor pk = (.error .notFound, st)) ∧
    ((∃ r ∈ st.requests, r.id = pk ∧ r.receiver = actor) →
      ∃ r, st.requests.find? (reqMatch pk actor) = some r ∧
        r.id = pk ∧ r.receiver = actor ∧
        acceptFriendRequest st actor pk =
          (.ok (markAccepted r),
           ⟨setFlag markAccepted pk actor st.requests, st.nextId⟩) ∧
        rejectFriendRequest st actor pk =
          (.ok (markRejected r),
           ⟨setFlag markRejected pk actor st.requests, st.nextId⟩)) := by
  constructor
  · intro hno
    have hn : st.requests.find? (reqMatch pk actor) = none := by
      rw [List.find?_eq_none]
      intro x hx hc
      exact hno ⟨x, hx, reqMatch_iff.mp hc⟩
    constructor
    · unfold acceptFriendRequest
      rw [hn]
    · unfold rejectFriendRequest
      rw [hn]
  · intro hex
    have hs : (st.requests.find? (reqMatch pk actor)).isSome := by
      rw [List.find?_isSome]
      obtain ⟨r, hr, h1, h2⟩ := hex
      exact ⟨r, hr, reqMatch_iff.mpr ⟨h1, h2⟩⟩
    obtain ⟨r, hr⟩ := Option.isSome_iff_exists.mp hs
    have hm := reqMatch_iff.mp (List.find?_some hr)
    refine ⟨r, hr, hm.1, hm.2, ?_, ?_⟩
    · unfold acceptFriendRequest
      rw [hr]
    · unfold rejectFriendRequest
      rw [hr]

/-- Witness for C9: on a store with the single row 1→2 (id 1), accept and
reject by user 3 (wrong receiver) and by user 1 (the sender) fail with
NotFound leaving the store unchanged, as does id 9 (nonexistent); accept
by the true receiver succeeds and updates the row. -/
theorem accept_reject_notFound_iff_witness :
    acceptFriendRequest ⟨[⟨1, 1, 2, 0, false, false⟩], 2⟩ 3 1 =
      (.error .notFound, ⟨[⟨1, 1, 2, 0, false, false⟩], 2⟩) ∧
    rejectFriendRequest ⟨[⟨1, 1, 2, 0, false, false⟩], 2⟩ 1 1 =
      (.error .notFound, ⟨[⟨1, 1, 2, 0, false, false⟩], 2⟩) ∧
    acceptFriendRequest ⟨[⟨1, 1, 2, 0, false, false⟩], 2⟩ 2 9 =
      (.error .notFound, ⟨[⟨1, 1, 2, 0, false, false⟩], 2⟩) ∧
    (acceptFriendRequest ⟨[⟨1, 1, 2, 0, false, false⟩], 2⟩ 2 1).2.requests =
      [⟨1, 1, 2, 0, true, false⟩] := by
  refine ⟨((accept_reject_notFound_iff ⟨[⟨1, 1, 2, 0, false, false⟩], 2⟩ 3 1).1
      (by decide)).1,
    ((accept_reject_notFound_iff ⟨[⟨1, 1, 2, 0, false, false⟩], 2⟩ 1 1).1
      (by decide)).2,
    ((accept_reject_notFound_iff ⟨[⟨1, 1, 2, 0, false, false⟩], 2⟩ 2 9).1
      (by decide)).1, ?_⟩
  obtain ⟨r, hfind, h1, h2, hacc, hrej⟩ :=
    (accept_reject_notFound_iff ⟨[⟨1, 1, 2, 0, false, false⟩], 2⟩ 2 1).2
      (by decide)
  rw [hacc]
  rfl
